import Mathlib

/-!
Verification of the task-tracking backend (Express + Mongoose CRUD over a
single `Task` collection).  The embedding follows `src/routes/tasks.ts`
(the five route handlers) and `src/models/Task.ts` (the schema: `text`
required, `completed` defaulted to `false`).

Modelling decisions:
* A stored document (`TaskDoc`) carries `text` and `completed` as `Option`
  values, so that the schema invariant "every persisted Task has non-null
  `text` and a present `completed`" is a real property of states rather
  than a typing triviality.  The store-generated `id` is a `Nat` drawn from
  a counter in the store, mirroring the store's unique id generation.
* Request bodies model JSON field presence with `Option`: `none` means the
  field is absent from the body (JS `undefined` after destructuring).
* Each handler takes a `storeErr : Option String` modelling whether the
  single store call of that request throws (the `String` is the underlying
  cause).  The `try/catch` of each handler maps any such failure to a 500
  response with a fixed generic message, leaving the store untouched.
* Schema validation at `save` follows Mongoose's required check for
  strings: the field must be present and non-empty.
-/

/-- A persisted task document.  `text` and `completed` are `Option`s so that
the presence of these fields in a stored record is a provable property. -/
structure TaskDoc where
  id : Nat
  text : Option String
  completed : Option Bool
deriving Repr, DecidableEq

/-- The task collection plus the store's id generator. -/
structure Store where
  docs : List TaskDoc
  nextId : Nat
deriving Repr, DecidableEq

/-- The JSON payloads the handlers produce: the `{response, status, msg}`
envelope around one task or a task list, or an `{error}` body. -/
inductive Payload where
  | item : TaskDoc → Nat → String → Payload
  | items : List TaskDoc → Nat → String → Payload
  | error : String → Payload
deriving Repr, DecidableEq

/-- An HTTP response: status code and JSON payload. -/
structure Response where
  statusCode : Nat
  body : Payload
deriving Repr, DecidableEq

/-- Body of `POST /`: both fields of the JSON body, each possibly absent.
The handler destructures only `text`. -/
structure CreateBody where
  text : Option String
  completed : Option Bool
deriving Repr, DecidableEq

/-- Body of `PUT /:id`: `{ text?, completed? }`, each possibly absent. -/
structure UpdateBody where
  text : Option String
  completed : Option Bool
deriving Repr, DecidableEq

/-- Mongoose's required-field check for a `String` path: the value must be
present and non-empty (`SchemaString.checkRequired`). -/
def validateRequired (t : Option String) : Bool :=
  match t with
  | some s => s.length > 0
  | none => false

/-- `Task.find(filter)` where the filter is `{}` (`none`) or
`{completed: b}` (`some b`): returns the matching documents in store
order. -/
def findDocs (s : Store) (f : Option Bool) : List TaskDoc :=
  match f with
  | none => s.docs
  | some b => s.docs.filter (fun d => d.completed == some b)

/-- Merge-update of one document by `findByIdAndUpdate`'s update object
`{text, completed}`: Mongoose strips `undefined` keys, so an absent field
leaves the stored value unchanged. -/
def applyUpdate (upd : UpdateBody) (d : TaskDoc) : TaskDoc :=
  { d with
    text := match upd.text with
      | some s => some s
      | none => d.text
    completed := match upd.completed with
      | some b => some b
      | none => d.completed }

/-- Replace the first document whose id matches; the store holds at most one
document per id. -/
def updateFirst (docs : List TaskDoc) (i : Nat) (d' : TaskDoc) : List TaskDoc :=
  match docs with
  | [] => []
  | d :: rest => if d.id == i then d' :: rest else d :: updateFirst rest i d'

/-- `Task.findByIdAndDelete(id)`: the removed document (or `none`) together
with the remaining collection. -/
def findByIdAndDelete (docs : List TaskDoc) (i : Nat) : Option TaskDoc × List TaskDoc :=
  match docs with
  | [] => (none, [])
  | d :: rest =>
    if d.id == i then (some d, rest)
    else
      let r := findByIdAndDelete rest i
      (r.1, d :: r.2)

/-- `router.post("/")`: destructures `text` from the body, constructs
`new Task({ text })` (schema defaults `completed` to `false`), saves it.
Success: 201 with the `{response, status, msg}` envelope.  A validation or
store failure is caught and mapped to 500 with a generic message. -/
def postHandler (storeErr : Option String) (body : CreateBody) (s : Store) :
    Response × Store :=
  match storeErr with
  | some _ => (⟨500, .error "Failed to create todo"⟩, s)
  | none =>
    let newDoc : TaskDoc := { id := s.nextId, text := body.text, completed := some false }
    if validateRequired body.text then
      (⟨201, .item newDoc 201 "Todo Created"⟩,
       { docs := s.docs ++ [newDoc], nextId := s.nextId + 1 })
    else
      (⟨500, .error "Failed to create todo"⟩, s)

/-- `router.get("/")`: builds the filter with an `if`/`else if` chain on the
`status` query parameter, then `Task.find(filter)`. -/
def listHandler (storeErr : Option String) (status : Option String) (s : Store) :
    Response × Store :=
  match storeErr with
  | some _ => (⟨500, .error "Failed to fetch todos"⟩, s)
  | none =>
    let filter : Option Bool :=
      if status = some "active" then some false
      else if status = some "completed" then some true
      else none
    (⟨200, .items (findDocs s filter) 200 "success"⟩, s)

/-- `router.get("/filter")`: builds the filter with a nested conditional
expression on `status`, then `Task.find(filter)`. -/
def filterHandler (storeErr : Option String) (status : Option String) (s : Store) :
    Response × Store :=
  match storeErr with
  | some _ => (⟨500, .error "Failed to filter todos"⟩, s)
  | none =>
    let filter : Option Bool :=
      if status = some "active" then some false
      else if status = some "completed" then some true
      else none
    (⟨200, .items (findDocs s filter) 200 "success"⟩, s)

/-- `router.put("/:id")`: `Task.findByIdAndUpdate(id, {text, completed},
{new: true})`; `null` result gives 404, otherwise 200 with the updated
document. -/
def putHandler (storeErr : Option String) (i : Nat) (body : UpdateBody) (s : Store) :
    Response × Store :=
  match storeErr with
  | some _ => (⟨500, .error "Failed to update todo"⟩, s)
  | none =>
    match s.docs.find? (fun d => d.id == i) with
    | none => (⟨404, .error "Todo not found"⟩, s)
    | some d =>
      let d' := applyUpdate body d
      (⟨200, .item d' 200 "Todo Updated"⟩, { s with docs := updateFirst s.docs i d' })

/-- `router.delete("/:id")`: `Task.findByIdAndDelete(id)`; `null` result
gives 404, otherwise 200. -/
def deleteHandler (storeErr : Option String) (i : Nat) (s : Store) :
    Response × Store :=
  match storeErr with
  | some _ => (⟨500, .error "Failed to delete todo"⟩, s)
  | none =>
    let r := findByIdAndDelete s.docs i
    match r.1 with
    | none => (⟨404, .error "Todo not found"⟩, s)
    | some d => (⟨200, .item d 200 "Todo deleted successfully"⟩, { s with docs := r.2 })

/-- The schema invariant on a store state: every persisted document has a
present (non-null) `text` and a present `completed` field. -/
def Wf (s : Store) : Prop :=
  ∀ d ∈ s.docs, d.text.isSome ∧ d.completed.isSome

instance (s : Store) : Decidable (Wf s) := by
  unfold Wf; infer_instance


/-! ### Helper lemmas about the store operations -/

theorem validateRequired_isSome (t : Option String) (h : validateRequired t = true) :
    t.isSome := by
  cases t with
  | none => simp [validateRequired] at h
  | some s => rfl

theorem mem_of_mem_updateFirst (docs : List TaskDoc) (i : Nat) (d' : TaskDoc)
    (u : TaskDoc) (hu : u ∈ updateFirst docs i d') : u ∈ docs ∨ u = d' := by
  induction docs with
  | nil => simp [updateFirst] at hu
  | cons v rest ih =>
    simp only [updateFirst, beq_iff_eq] at hu
    by_cases h : v.id = i
    · rw [if_pos h] at hu
      rcases List.mem_cons.mp hu with rfl | hmem
      · exact Or.inr rfl
      · exact Or.inl (List.mem_cons_of_mem _ hmem)
    · rw [if_neg h] at hu
      rcases List.mem_cons.mp hu with rfl | hmem
      · exact Or.inl (List.mem_cons_self _ _)
      · rcases ih hmem with h1 | h2
        · exact Or.inl (List.mem_cons_of_mem _ h1)
        · exact Or.inr h2

theorem mem_updateFirst_of_ne (docs : List TaskDoc) (i : Nat) (d' : TaskDoc)
    (u : TaskDoc) (hu : u ∈ docs) (hne : u.id ≠ i) : u ∈ updateFirst docs i d' := by
  induction docs with
  | nil => cases hu
  | cons v rest ih =>
    simp only [updateFirst, beq_iff_eq]
    by_cases h : v.id = i
    · rw [if_pos h]
      rcases List.mem_cons.mp hu with rfl | hmem
      · exact absurd h hne
      · exact List.mem_cons_of_mem _ hmem
    · rw [if_neg h]
      rcases List.mem_cons.mp hu with rfl | hmem
      · exact List.mem_cons_self _ _
      · exact List.mem_cons_of_mem _ (ih hmem)

theorem self_mem_updateFirst (docs : List TaskDoc) (i : Nat) (d' : TaskDoc)
    (w : TaskDoc) (hw : w ∈ docs) (hwi : w.id = i) : d' ∈ updateFirst docs i d' := by
  induction docs with
  | nil => cases hw
  | cons v rest ih =>
    simp only [updateFirst, beq_iff_eq]
    by_cases h : v.id = i
    · rw [if_pos h]
      exact List.mem_cons_self _ _
    · rw [if_neg h]
      rcases List.mem_cons.mp hw with rfl | hmem
      · exact absurd hwi h
      · exact List.mem_cons_of_mem _ (ih hmem)

theorem length_updateFirst (docs : List TaskDoc) (i : Nat) (d' : TaskDoc) :
    (updateFirst docs i d').length = docs.length := by
  induction docs with
  | nil => rfl
  | cons v rest ih =>
    simp only [updateFirst, beq_iff_eq]
    by_cases h : v.id = i
    · rw [if_pos h]
      simp
    · rw [if_neg h]
      simp [ih]

theorem find_id_of_nodup (docs : List TaskDoc) (d : TaskDoc)
    (hnodup : (docs.map TaskDoc.id).Nodup) (hd : d ∈ docs) :
    docs.find? (fun u => u.id == d.id) = some d := by
  induction docs with
  | nil => cases hd
  | cons v rest ih =>
    rw [List.map_cons, List.nodup_cons] at hnodup
    rcases List.mem_cons.mp hd with rfl | hmem
    · exact List.find?_cons_of_pos _ (by simp)
    · have hne : v.id ≠ d.id := by
        intro h
        exact hnodup.1 (h ▸ List.mem_map_of_mem TaskDoc.id hmem)
      rw [List.find?_cons_of_neg _ (by simpa using hne)]
      exact ih hnodup.2 hmem

theorem fbid_snd_subset (docs : List TaskDoc) (i : Nat)
    (u : TaskDoc) (hu : u ∈ (findByIdAndDelete docs i).2) : u ∈ docs := by
  induction docs with
  | nil => simp [findByIdAndDelete] at hu
  | cons v rest ih =>
    simp only [findByIdAndDelete, beq_iff_eq] at hu
    by_cases h : v.id = i
    · rw [if_pos h] at hu
      exact List.mem_cons_of_mem _ hu
    · rw [if_neg h] at hu
      rcases List.mem_cons.mp hu with rfl | hmem
      · exact List.mem_cons_self _ _
      · exact List.mem_cons_of_mem _ (ih hmem)

theorem fbid_snd_id_ne (docs : List TaskDoc) (i : Nat)
    (hnodup : (docs.map TaskDoc.id).Nodup)
    (u : TaskDoc) (hu : u ∈ (findByIdAndDelete docs i).2) : u.id ≠ i := by
  induction docs with
  | nil => simp [findByIdAndDelete] at hu
  | cons v rest ih =>
    rw [List.map_cons, List.nodup_cons] at hnodup
    simp only [findByIdAndDelete, beq_iff_eq] at hu
    by_cases h : v.id = i
    · rw [if_pos h] at hu
      intro hui
      exact hnodup.1 ((h.trans hui.symm) ▸ List.mem_map_of_mem TaskDoc.id hu)
    · rw [if_neg h] at hu
      rcases List.mem_cons.mp hu with rfl | hmem
      · exact h
      · exact ih hnodup.2 hmem

theorem fbid_snd_mem_of_ne (docs : List TaskDoc) (i : Nat)
    (u : TaskDoc) (hu : u ∈ docs) (hne : u.id ≠ i) :
    u ∈ (findByIdAndDelete docs i).2 := by
  induction docs with
  | nil => cases hu
  | cons v rest ih =>
    simp only [findByIdAndDelete, beq_iff_eq]
    by_cases h : v.id = i
    · rw [if_pos h]
      rcases List.mem_cons.mp hu with rfl | hmem
      · exact absurd h hne
      · exact hmem
    · rw [if_neg h]
      rcases List.mem_cons.mp hu with rfl | hmem
      · exact List.mem_cons_self _ _
      · exact List.mem_cons_of_mem _ (ih hmem)

theorem fbid_fst_none (docs : List TaskDoc) (i : Nat)
    (h : ∀ u ∈ docs, u.id ≠ i) : (findByIdAndDelete docs i).1 = none := by
  induction docs with
  | nil => rfl
  | cons v rest ih =>
    have hv : v.id ≠ i := h v (List.mem_cons_self _ _)
    simp only [findByIdAndDelete, beq_iff_eq]
    rw [if_neg hv]
    exact ih (fun u hu => h u (List.mem_cons_of_mem _ hu))

theorem fbid_fst_of_mem (docs : List TaskDoc) (d : TaskDoc)
    (hnodup : (docs.map TaskDoc.id).Nodup) (hd : d ∈ docs) :
    (findByIdAndDelete docs d.id).1 = some d := by
  induction docs with
  | nil => cases hd
  | cons v rest ih =>
    rw [List.map_cons, List.nodup_cons] at hnodup
    simp only [findByIdAndDelete, beq_iff_eq]
    rcases List.mem_cons.mp hd with rfl | hmem
    · rw [if_pos rfl]
    · have hne : v.id ≠ d.id := by
        intro h
        exact hnodup.1 (h ▸ List.mem_map_of_mem TaskDoc.id hmem)
      rw [if_neg hne]
      exact ih hnodup.2 hmem

/-! ### Claim theorems -/

/-- C3: for every collection state and every status query value, the
`GET /filter` handler and the `GET /` handler produce identical responses
(same result set, status code and envelope) and the same resulting store:
the two routes are observationally equivalent for the same status input. -/
theorem list_filter_routes_equiv (status : Option String) (s : Store) :
    listHandler none status s = filterHandler none status s := rfl

/-- C7: a `POST /` whose body omits the `text` field fails: the store is
unchanged (no record is created), the response is a 500 error, and in
particular the status is not 201.  This holds whether the failure comes
from schema validation at save or from a store-level error. -/
theorem post_omitted_text_fails (e : Option String) (c : Option Bool) (s : Store) :
    postHandler e ⟨none, c⟩ s = (⟨500, Payload.error "Failed to create todo"⟩, s) ∧
    (postHandler e ⟨none, c⟩ s).1.statusCode ≠ 201 := by
  have h1 : postHandler e ⟨none, c⟩ s =
      (⟨500, Payload.error "Failed to create todo"⟩, s) := by
    cases e <;> rfl
  refine ⟨h1, ?_⟩
  rw [h1]
  exact (by decide : (500 : Nat) ≠ 201)

/-- C9: for every operation and every store-layer failure (an arbitrary
underlying error `e`), the handler responds with status 500 and a fixed
generic error payload that does not depend on `e` (no detail of the cause
is leaked), and the store is left unchanged: no failure escapes a
handler. -/
theorem store_failure_yields_500 (e : String) (b : CreateBody) (u : UpdateBody)
    (status : Option String) (i : Nat) (s : Store) :
    postHandler (some e) b s = (⟨500, Payload.error "Failed to create todo"⟩, s) ∧
    listHandler (some e) status s = (⟨500, Payload.error "Failed to fetch todos"⟩, s) ∧
    filterHandler (some e) status s = (⟨500, Payload.error "Failed to filter todos"⟩, s) ∧
    putHandler (some e) i u s = (⟨500, Payload.error "Failed to update todo"⟩, s) ∧
    deleteHandler (some e) i s = (⟨500, Payload.error "Failed to delete todo"⟩, s) :=
  ⟨rfl, rfl, rfl, rfl, rfl⟩

/-- C10: the `POST /` handler builds the new task from the body's `text`
field only: a `completed` field in the request body is ignored (the result
is the same as with `completed` absent), and on success the created task
has `completed = false` even when the body said `completed = true`. -/
theorem post_ignores_completed (e : Option String) (t : Option String)
    (c : Option Bool) (s : Store) (h : validateRequired t = true) :
    postHandler e ⟨t, c⟩ s = postHandler e ⟨t, none⟩ s ∧
    (postHandler none ⟨t, some true⟩ s).1 =
      ⟨201, Payload.item ⟨s.nextId, t, some false⟩ 201 "Todo Created"⟩ := by
  refine ⟨by cases e <;> rfl, ?_⟩
  simp [postHandler, h]

/-- Witness for C10 at a concrete input. -/
theorem post_ignores_completed_witness :
    validateRequired (some "x") = true ∧
    (postHandler none ⟨some "x", some true⟩ ⟨[], 0⟩ =
        postHandler none ⟨some "x", none⟩ ⟨[], 0⟩ ∧
      (postHandler none ⟨some "x", some true⟩ ⟨[], 0⟩).1 =
        ⟨201, Payload.item ⟨0, some "x", some false⟩ 201 "Todo Created"⟩) :=
  ⟨by decide, post_ignores_completed none (some "x") (some true) ⟨[], 0⟩ (by decide)⟩

/-- C1: the `GET /` handler implements the three-way status filter exactly:
`status=active` returns exactly the stored tasks with `completed=false`,
`status=completed` exactly those with `completed=true`, and any other
status value (including absent) returns all stored tasks, which — when
every stored task has a present `completed` field — is exactly the union
of the two filtered sets. -/
theorem list_status_three_way (status : Option String) (s : Store)
    (hinv : ∀ d ∈ s.docs, d.completed.isSome) :
    (listHandler none (some "active") s).1 =
      ⟨200, Payload.items (s.docs.filter (fun d => d.completed == some false)) 200 "success"⟩ ∧
    (listHandler none (some "completed") s).1 =
      ⟨200, Payload.items (s.docs.filter (fun d => d.completed == some true)) 200 "success"⟩ ∧
    (status ≠ some "active" → status ≠ some "completed" →
      (listHandler none status s).1 = ⟨200, Payload.items s.docs 200 "success"⟩ ∧
      ∀ d, d ∈ s.docs ↔
        (d ∈ s.docs.filter (fun u => u.completed == some false) ∨
         d ∈ s.docs.filter (fun u => u.completed == some true))) := by
  refine ⟨rfl, rfl, ?_⟩
  intro h1 h2
  constructor
  · simp [listHandler, findDocs, h1, h2]
  · intro d
    constructor
    · intro hd
      rcases Option.isSome_iff_exists.mp (hinv d hd) with ⟨b, hb⟩
      cases b
      · exact Or.inl (List.mem_filter.mpr ⟨hd, by simp [hb]⟩)
      · exact Or.inr (List.mem_filter.mpr ⟨hd, by simp [hb]⟩)
    · rintro (hmem | hmem) <;> exact (List.mem_filter.mp hmem).1

/-- Witness for C1 on a concrete two-task store with no status value. -/
theorem list_status_three_way_witness :
    (∀ d ∈ (⟨[⟨0, some "a", some false⟩, ⟨1, some "b", some true⟩], 2⟩ : Store).docs,
        d.completed.isSome) ∧
    ((listHandler none (some "active")
        (⟨[⟨0, some "a", some false⟩, ⟨1, some "b", some true⟩], 2⟩ : Store)).1 =
      ⟨200, Payload.items
        ((⟨[⟨0, some "a", some false⟩, ⟨1, some "b", some true⟩], 2⟩ : Store).docs.filter
          (fun d => d.completed == some false)) 200 "success"⟩ ∧
    (listHandler none (some "completed")
        (⟨[⟨0, some "a", some false⟩, ⟨1, some "b", some true⟩], 2⟩ : Store)).1 =
      ⟨200, Payload.items
        ((⟨[⟨0, some "a", some false⟩, ⟨1, some "b", some true⟩], 2⟩ : Store).docs.filter
          (fun d => d.completed == some true)) 200 "success"⟩ ∧
    ((none : Option String) ≠ some "active" → (none : Option String) ≠ some "completed" →
      (listHandler none none
          (⟨[⟨0, some "a", some false⟩, ⟨1, some "b", some true⟩], 2⟩ : Store)).1 =
        ⟨200, Payload.items
          (⟨[⟨0, some "a", some false⟩, ⟨1, some "b", some true⟩], 2⟩ : Store).docs
          200 "success"⟩ ∧
      ∀ d, d ∈ (⟨[⟨0, some "a", some false⟩, ⟨1, some "b", some true⟩], 2⟩ : Store).docs ↔
        (d ∈ (⟨[⟨0, some "a", some false⟩, ⟨1, some "b", some true⟩], 2⟩ : Store).docs.filter
            (fun u => u.completed == some false) ∨
         d ∈ (⟨[⟨0, some "a", some false⟩, ⟨1, some "b", some true⟩], 2⟩ : Store).docs.filter
            (fun u => u.completed == some true)))) :=
  ⟨by decide, list_status_three_way none
    (⟨[⟨0, some "a", some false⟩, ⟨1, some "b", some true⟩], 2⟩ : Store) (by decide)⟩

/-- C2: creating a task with a non-empty `text` succeeds with status 201,
and a subsequent `GET /` returns a set containing a task with that `text`
and `completed = false`. -/
theorem post_then_list_contains (t : String) (c : Option Bool) (s : Store)
    (h : 0 < t.length) :
    (postHandler none ⟨some t, c⟩ s).1.statusCode = 201 ∧
    (listHandler none none (postHandler none ⟨some t, c⟩ s).2).1.body =
      Payload.items (s.docs ++ [⟨s.nextId, some t, some false⟩]) 200 "success" ∧
    ∃ d ∈ s.docs ++ [⟨s.nextId, some t, some false⟩],
      d.text = some t ∧ d.completed = some false := by
  have hv : validateRequired (some t) = true := by
    simp [validateRequired, h]
  refine ⟨?_, ?_, ?_⟩
  · simp [postHandler, hv]
  · simp [postHandler, hv, listHandler, findDocs]
  · exact ⟨⟨s.nextId, some t, some false⟩,
      List.mem_append_right _ (List.mem_singleton_self _), rfl, rfl⟩

/-- Witness for C2 with the concrete text "buy milk" on an empty store. -/
theorem post_then_list_contains_witness :
    0 < ("buy milk").length ∧
    ((postHandler none ⟨some "buy milk", none⟩ (⟨[], 0⟩ : Store)).1.statusCode = 201 ∧
    (listHandler none none (postHandler none ⟨some "buy milk", none⟩ (⟨[], 0⟩ : Store)).2).1.body =
      Payload.items ([] ++ [⟨0, some "buy milk", some false⟩]) 200 "success" ∧
    ∃ d ∈ ([] : List TaskDoc) ++ [⟨0, some "buy milk", some false⟩],
      d.text = some "buy milk" ∧ d.completed = some false) :=
  ⟨by decide, post_then_list_contains "buy milk" none (⟨[], 0⟩ : Store) (by decide)⟩

theorem applyUpdate_isSome (u : UpdateBody) (d : TaskDoc)
    (h1 : d.text.isSome) (h2 : d.completed.isSome) :
    (applyUpdate u d).text.isSome ∧ (applyUpdate u d).completed.isSome := by
  constructor
  · cases ht : u.text with
    | some v => simp [applyUpdate, ht]
    | none => simpa [applyUpdate, ht] using h1
  · cases hc : u.completed with
    | some v => simp [applyUpdate, hc]
    | none => simpa [applyUpdate, hc] using h2

/-- C8: every operation preserves the schema invariant that each stored
task has a present (non-null) `text` and a present `completed` field; and
a successful create appends exactly one task whose `completed` was
defaulted to `false`. -/
theorem handlers_preserve_invariant (e : Option String) (b : CreateBody) (u : UpdateBody)
    (status : Option String) (i : Nat) (s : Store) (hs : Wf s) :
    Wf (postHandler e b s).2 ∧ Wf (listHandler e status s).2 ∧
    Wf (filterHandler e status s).2 ∧ Wf (putHandler e i u s).2 ∧
    Wf (deleteHandler e i s).2 ∧
    (e = none → validateRequired b.text = true →
      (postHandler e b s).2.docs = s.docs ++ [⟨s.nextId, b.text, some false⟩]) := by
  cases e with
  | some ea => exact ⟨hs, hs, hs, hs, hs, fun h _ => by cases h⟩
  | none =>
    have hpost : Wf (postHandler none b s).2 := by
      by_cases hv : validateRequired b.text = true
      · intro d hd
        have hd' : d ∈ s.docs ++
            [({ id := s.nextId, text := b.text, completed := some false } : TaskDoc)] := by
          simpa [postHandler, hv] using hd
        rcases List.mem_append.mp hd' with hmem | hmem
        · exact hs d hmem
        · rcases List.mem_singleton.mp hmem with rfl
          exact ⟨validateRequired_isSome b.text hv, rfl⟩
      · have heq : postHandler none b s =
            (⟨500, Payload.error "Failed to create todo"⟩, s) := by
          simp [postHandler, hv]
        rw [heq]; exact hs
    have hput : Wf (putHandler none i u s).2 := by
      cases hfind : s.docs.find? (fun d => d.id == i) with
      | none =>
        have heq : putHandler none i u s = (⟨404, Payload.error "Todo not found"⟩, s) := by
          simp [putHandler, hfind]
        rw [heq]; exact hs
      | some d =>
        have hdm : d ∈ s.docs := List.mem_of_find?_eq_some hfind
        have hwd := hs d hdm
        have heq : (putHandler none i u s).2.docs = updateFirst s.docs i (applyUpdate u d) := by
          simp [putHandler, hfind]
        intro x hx
        rw [heq] at hx
        rcases mem_of_mem_updateFirst _ _ _ _ hx with hmem | hx'
        · exact hs x hmem
        · rw [hx']
          exact applyUpdate_isSome u d hwd.1 hwd.2
    have hdel : Wf (deleteHandler none i s).2 := by
      cases hfst : (findByIdAndDelete s.docs i).1 with
      | none =>
        have heq : deleteHandler none i s = (⟨404, Payload.error "Todo not found"⟩, s) := by
          simp [deleteHandler, hfst]
        rw [heq]; exact hs
      | some d =>
        have heq : (deleteHandler none i s).2.docs = (findByIdAndDelete s.docs i).2 := by
          simp [deleteHandler, hfst]
        intro x hx
        rw [heq] at hx
        exact hs x (fbid_snd_subset _ _ _ hx)
    exact ⟨hpost, hs, hs, hput, hdel, fun _ hv => by simp [postHandler, hv]⟩

/-- Witness for C8 on an empty store and a valid create body. -/
theorem handlers_preserve_invariant_witness :
    Wf (⟨[], 0⟩ : Store) ∧
    (Wf (postHandler none ⟨some "t", none⟩ (⟨[], 0⟩ : Store)).2 ∧
    Wf (listHandler none none (⟨[], 0⟩ : Store)).2 ∧
    Wf (filterHandler none none (⟨[], 0⟩ : Store)).2 ∧
    Wf (putHandler none 0 ⟨none, none⟩ (⟨[], 0⟩ : Store)).2 ∧
    Wf (deleteHandler none 0 (⟨[], 0⟩ : Store)).2 ∧
    ((none : Option String) = none → validateRequired (some "t") = true →
      (postHandler none ⟨some "t", none⟩ (⟨[], 0⟩ : Store)).2.docs =
        ([] : List TaskDoc) ++ [⟨0, some "t", some false⟩])) :=
  ⟨by decide, handlers_preserve_invariant none ⟨some "t", none⟩ ⟨none, none⟩
    none 0 (⟨[], 0⟩ : Store) (by decide)⟩

/-- C5: a `PUT /:id` whose identifier matches no stored task returns 404
with an error payload and leaves the store exactly as it was. -/
theorem put_nonexistent_404 (i : Nat) (u : UpdateBody) (s : Store)
    (h : ∀ d ∈ s.docs, d.id ≠ i) :
    putHandler none i u s = (⟨404, Payload.error "Todo not found"⟩, s) := by
  have hfind : s.docs.find? (fun d => d.id == i) = none := by
    rw [List.find?_eq_none]
    intro x hx
    simpa using h x hx
  simp [putHandler, hfind]

/-- Witness for C5: updating id 5 in a store holding only id 0. -/
theorem put_nonexistent_404_witness :
    (∀ d ∈ (⟨[⟨0, some "a", some false⟩], 1⟩ : Store).docs, d.id ≠ 5) ∧
    putHandler none 5 ⟨none, some true⟩ (⟨[⟨0, some "a", some false⟩], 1⟩ : Store) =
      (⟨404, Payload.error "Todo not found"⟩, (⟨[⟨0, some "a", some false⟩], 1⟩ : Store)) :=
  ⟨by decide, put_nonexistent_404 5 ⟨none, some true⟩
    (⟨[⟨0, some "a", some false⟩], 1⟩ : Store) (by decide)⟩

/-- C4: a `PUT /:id` with body `{completed: true}` on an existing task (in
a store with unique ids) flips only that task's `completed` field: the
returned task keeps its `id` and `text`, the updated version is stored,
every other stored task is untouched, the collection size is unchanged,
and a subsequent `GET /` reflects exactly the updated store. -/
theorem put_completed_frame (s : Store) (d : TaskDoc)
    (hnodup : (s.docs.map TaskDoc.id).Nodup) (hd : d ∈ s.docs) :
    (putHandler none d.id ⟨none, some true⟩ s).1 =
      ⟨200, Payload.item ⟨d.id, d.text, some true⟩ 200 "Todo Updated"⟩ ∧
    (⟨d.id, d.text, some true⟩ : TaskDoc) ∈ (putHandler none d.id ⟨none, some true⟩ s).2.docs ∧
    (∀ u ∈ s.docs, u.id ≠ d.id → u ∈ (putHandler none d.id ⟨none, some true⟩ s).2.docs) ∧
    (∀ u ∈ (putHandler none d.id ⟨none, some true⟩ s).2.docs,
      u ∈ s.docs ∨ u = ⟨d.id, d.text, some true⟩) ∧
    (putHandler none d.id ⟨none, some true⟩ s).2.docs.length = s.docs.length ∧
    (listHandler none none (putHandler none d.id ⟨none, some true⟩ s).2).1.body =
      Payload.items (putHandler none d.id ⟨none, some true⟩ s).2.docs 200 "success" := by
  have hfind : s.docs.find? (fun u => u.id == d.id) = some d :=
    find_id_of_nodup s.docs d hnodup hd
  have hap : applyUpdate ⟨none, some true⟩ d = ⟨d.id, d.text, some true⟩ := rfl
  have hdocs : (putHandler none d.id ⟨none, some true⟩ s).2.docs =
      updateFirst s.docs d.id (⟨d.id, d.text, some true⟩ : TaskDoc) := by
    simp [putHandler, hfind, hap]
  refine ⟨?_, ?_, ?_, ?_, ?_, rfl⟩
  · simp [putHandler, hfind, hap]
  · rw [hdocs]
    exact self_mem_updateFirst _ _ _ d hd rfl
  · intro u hu hne
    rw [hdocs]
    exact mem_updateFirst_of_ne _ _ _ u hu hne
  · intro u hu
    rw [hdocs] at hu
    exact mem_of_mem_updateFirst _ _ _ u hu
  · rw [hdocs]
    exact length_updateFirst _ _ _

/-- Witness for C4: completing task id 0 in a two-task store. -/
theorem put_completed_frame_witness :
    ((⟨[⟨0, some "a", some false⟩, ⟨1, some "b", some false⟩], 2⟩ : Store).docs.map
        TaskDoc.id).Nodup ∧
    (⟨0, some "a", some false⟩ : TaskDoc) ∈
      (⟨[⟨0, some "a", some false⟩, ⟨1, some "b", some false⟩], 2⟩ : Store).docs ∧
    ((putHandler none 0 ⟨none, some true⟩
        (⟨[⟨0, some "a", some false⟩, ⟨1, some "b", some false⟩], 2⟩ : Store)).1 =
      ⟨200, Payload.item ⟨0, some "a", some true⟩ 200 "Todo Updated"⟩ ∧
    (⟨0, some "a", some true⟩ : TaskDoc) ∈
      (putHandler none 0 ⟨none, some true⟩
        (⟨[⟨0, some "a", some false⟩, ⟨1, some "b", some false⟩], 2⟩ : Store)).2.docs ∧
    (∀ u ∈ (⟨[⟨0, some "a", some false⟩, ⟨1, some "b", some false⟩], 2⟩ : Store).docs,
      u.id ≠ 0 → u ∈ (putHandler none 0 ⟨none, some true⟩
        (⟨[⟨0, some "a", some false⟩, ⟨1, some "b", some false⟩], 2⟩ : Store)).2.docs) ∧
    (∀ u ∈ (putHandler none 0 ⟨none, some true⟩
        (⟨[⟨0, some "a", some false⟩, ⟨1, some "b", some false⟩], 2⟩ : Store)).2.docs,
      u ∈ (⟨[⟨0, some "a", some false⟩, ⟨1, some "b", some false⟩], 2⟩ : Store).docs ∨
        u = ⟨0, some "a", some true⟩) ∧
    (putHandler none 0 ⟨none, some true⟩
        (⟨[⟨0, some "a", some false⟩, ⟨1, some "b", some false⟩], 2⟩ : Store)).2.docs.length =
      (⟨[⟨0, some "a", some false⟩, ⟨1, some "b", some false⟩], 2⟩ : Store).docs.length ∧
    (listHandler none none (putHandler none 0 ⟨none, some true⟩
        (⟨[⟨0, some "a", some false⟩, ⟨1, some "b", some false⟩], 2⟩ : Store)).2).1.body =
      Payload.items (putHandler none 0 ⟨none, some true⟩
        (⟨[⟨0, some "a", some false⟩, ⟨1, some "b", some false⟩], 2⟩ : Store)).2.docs
        200 "success") :=
  ⟨by decide, by decide,
    put_completed_frame
      (⟨[⟨0, some "a", some false⟩, ⟨1, some "b", some false⟩], 2⟩ : Store)
      (⟨0, some "a", some false⟩ : TaskDoc) (by decide) (by decide)⟩

/-- C6: a `DELETE /:id` on an existing task (in a store with unique ids)
removes exactly that record: a subsequent `GET /` no longer contains it,
every other record is still present and nothing new appears, and a second
`DELETE` with the same id returns 404 leaving the store unchanged. -/
theorem delete_removes_then_404 (s : Store) (d : TaskDoc)
    (hnodup : (s.docs.map TaskDoc.id).Nodup) (hd : d ∈ s.docs) :
    (deleteHandler none d.id s).1 =
      ⟨200, Payload.item d 200 "Todo deleted successfully"⟩ ∧
    (∀ u ∈ (deleteHandler none d.id s).2.docs, u ∈ s.docs ∧ u.id ≠ d.id) ∧
    (∀ u ∈ s.docs, u.id ≠ d.id → u ∈ (deleteHandler none d.id s).2.docs) ∧
    d ∉ (deleteHandler none d.id s).2.docs ∧
    (listHandler none none (deleteHandler none d.id s).2).1.body =
      Payload.items (deleteHandler none d.id s).2.docs 200 "success" ∧
    deleteHandler none d.id (deleteHandler none d.id s).2 =
      (⟨404, Payload.error "Todo not found"⟩, (deleteHandler none d.id s).2) := by
  have hfst : (findByIdAndDelete s.docs d.id).1 = some d :=
    fbid_fst_of_mem s.docs d hnodup hd
  have hdocs : (deleteHandler none d.id s).2.docs = (findByIdAndDelete s.docs d.id).2 := by
    simp [deleteHandler, hfst]
  have hne : ∀ u ∈ (findByIdAndDelete s.docs d.id).2, u.id ≠ d.id :=
    fun u hu => fbid_snd_id_ne s.docs d.id hnodup u hu
  refine ⟨?_, ?_, ?_, ?_, rfl, ?_⟩
  · simp [deleteHandler, hfst]
  · intro u hu
    rw [hdocs] at hu
    exact ⟨fbid_snd_subset _ _ _ hu, hne u hu⟩
  · intro u hu hune
    rw [hdocs]
    exact fbid_snd_mem_of_ne _ _ _ hu hune
  · intro hcon
    rw [hdocs] at hcon
    exact hne d hcon rfl
  · have h404 : (findByIdAndDelete (deleteHandler none d.id s).2.docs d.id).1 = none := by
      rw [hdocs]
      exact fbid_fst_none _ _ hne
    generalize hgen : (deleteHandler none d.id s).2 = s2 at h404 ⊢
    simp [deleteHandler, h404]

/-- Witness for C6: deleting task id 1 from a two-task store. -/
theorem delete_removes_then_404_witness :
    ((⟨[⟨0, some "a", some false⟩, ⟨1, some "b", some true⟩], 2⟩ : Store).docs.map
        TaskDoc.id).Nodup ∧
    (⟨1, some "b", some true⟩ : TaskDoc) ∈
      (⟨[⟨0, some "a", some false⟩, ⟨1, some "b", some true⟩], 2⟩ : Store).docs ∧
    ((deleteHandler none 1
        (⟨[⟨0, some "a", some false⟩, ⟨1, some "b", some true⟩], 2⟩ : Store)).1 =
      ⟨200, Payload.item ⟨1, some "b", some true⟩ 200 "Todo deleted successfully"⟩ ∧
    (∀ u ∈ (deleteHandler none 1
        (⟨[⟨0, some "a", some false⟩, ⟨1, some "b", some true⟩], 2⟩ : Store)).2.docs,
      u ∈ (⟨[⟨0, some "a", some false⟩, ⟨1, some "b", some true⟩], 2⟩ : Store).docs ∧
        u.id ≠ 1) ∧
    (∀ u ∈ (⟨[⟨0, some "a", some false⟩, ⟨1, some "b", some true⟩], 2⟩ : Store).docs,
      u.id ≠ 1 → u ∈ (deleteHandler none 1
        (⟨[⟨0, some "a", some false⟩, ⟨1, some "b", some true⟩], 2⟩ : Store)).2.docs) ∧
    (⟨1, some "b", some true⟩ : TaskDoc) ∉
      (deleteHandler none 1
        (⟨[⟨0, some "a", some false⟩, ⟨1, some "b", some true⟩], 2⟩ : Store)).2.docs ∧
    (listHandler none none (deleteHandler none 1
        (⟨[⟨0, some "a", some false⟩, ⟨1, some "b", some true⟩], 2⟩ : Store)).2).1.body =
      Payload.items (deleteHandler none 1
        (⟨[⟨0, some "a", some false⟩, ⟨1, some "b", some true⟩], 2⟩ : Store)).2.docs
        200 "success" ∧
    deleteHandler none 1 (deleteHandler none 1
        (⟨[⟨0, some "a", some false⟩, ⟨1, some "b", some true⟩], 2⟩ : Store)).2 =
      (⟨404, Payload.error "Todo not found"⟩,
        (deleteHandler none 1
          (⟨[⟨0, some "a", some false⟩, ⟨1, some "b", some true⟩], 2⟩ : Store)).2)) :=
  ⟨by decide, by decide,
    delete_removes_then_404
      (⟨[⟨0, some "a", some false⟩, ⟨1, some "b", some true⟩], 2⟩ : Store)
      (⟨1, some "b", some true⟩ : TaskDoc) (by decide) (by decide)⟩
